import Mathlib

/-!
Verification of the ProvusFormatter header-conversion pipeline.

The Python sources (`src/core/file_processor.py`, `src/core/mcg_parser.py`,
and the PEM branch of `src/gui/pages/analysis.py`) are shallowly embedded
below.  Python strings are Lean `String`s manipulated through explicit
re-implementations of the Python string methods actually used by the code
(`strip`, `split`, `upper`, substring containment, ...), Python floats are
embedded as `ℚ` (the claims under scrutiny only involve decimal literals and
exact decimal arithmetic), and Python's `float(...)` / `int(...)` literal
parsers are modelled for plain decimal / scientific-notation literals, which
are the only shapes the surrounding grammar can feed them.  Fallible Python
code (try/except, raised exceptions) is embedded with `Option` / explicit
error results, and file writes are modelled by explicit write lists or a
`String → Option String` file-system map.
-/

namespace Provus

/-! ## Python string primitives -/

/-- Whitespace characters stripped by Python `str.strip()`. -/
def pyIsWs (c : Char) : Bool :=
  c = ' ' || c = '\t' || c = '\n' || c = '\x0d' || c = '\x0b' || c = '\x0c'

/-- Drop characters satisfying `p` from both ends of a character list. -/
def charsTrim (p : Char → Bool) (l : List Char) : List Char :=
  ((l.dropWhile p).reverse.dropWhile p).reverse

/-- Python `s.strip()`. -/
def pyStrip (s : String) : String :=
  ⟨charsTrim pyIsWs s.data⟩

/-- Python `s.strip(chars)`: strip any of the given characters from both ends. -/
def pyStripChars (s : String) (chars : String) : String :=
  ⟨charsTrim (fun c => chars.data.contains c) s.data⟩

/-- Substring search on character lists. -/
def charsContains (needle : List Char) : List Char → Bool
  | [] => needle.isEmpty
  | c :: t => needle.isPrefixOf (c :: t) || charsContains needle t

/-- Python `pat in s` (substring containment). -/
def containsSub (s pat : String) : Bool :=
  charsContains pat.data s.data

/-- Fuel-driven split of a character list on a non-empty separator. -/
def charsSplitAux (sep : List Char) : Nat → List Char → List Char → List (List Char)
  | 0, l, acc => [acc.reverse ++ l]
  | fuel + 1, l, acc =>
    if sep.isPrefixOf l ∧ sep ≠ [] then
      acc.reverse :: charsSplitAux sep fuel (l.drop sep.length) []
    else
      match l with
      | [] => [acc.reverse]
      | c :: t => charsSplitAux sep fuel t (c :: acc)

/-- Python `s.split(sep)` for a non-empty separator string. -/
def pySplit (s sep : String) : List String :=
  if sep = "" then [s]
  else (charsSplitAux sep.data (s.data.length + 1) s.data []).map fun l => ⟨l⟩

/-- Helper for `pySplitFirst`: break a character list at the first occurrence
of the separator, returning the part before and the part after it. -/
def charsBreakAux (sep : List Char) : Nat → List Char → List Char → List Char × Option (List Char)
  | 0, l, acc => (acc.reverse ++ l, none)
  | fuel + 1, l, acc =>
    if sep.isPrefixOf l ∧ sep ≠ [] then (acc.reverse, some (l.drop sep.length))
    else
      match l with
      | [] => (acc.reverse, none)
      | c :: t => charsBreakAux sep fuel t (c :: acc)

/-- Python `s.split(sep, 1)` viewed as a pair (part before the first
separator occurrence, part after it); the second component is the whole
remainder of the string. -/
def pySplitFirst (s sep : String) : String × Option String :=
  let r := charsBreakAux sep.data (s.data.length + 1) s.data []
  (⟨r.1⟩, r.2.map fun l => ⟨l⟩)

/-- Python `s.split()` (split on whitespace runs, no empty fields). -/
def charsFieldsAux : Nat → List Char → List (List Char)
  | 0, _ => []
  | fuel + 1, l =>
    let l := l.dropWhile pyIsWs
    match l with
    | [] => []
    | c :: t =>
      ((c :: t).takeWhile (fun d => ¬ pyIsWs d)) ::
        charsFieldsAux fuel ((c :: t).dropWhile (fun d => ¬ pyIsWs d))

/-- Python `s.split()` on a `String`. -/
def pySplitWs (s : String) : List String :=
  (charsFieldsAux (s.data.length + 1) s.data).map fun l => ⟨l⟩

/-- Python `s.upper()` (ASCII). -/
def pyUpper (s : String) : String :=
  ⟨s.data.map Char.toUpper⟩

/-- Python `s.lower()` (ASCII). -/
def pyLower (s : String) : String :=
  ⟨s.data.map Char.toLower⟩

/-- Join a list of strings with a separator (Python `sep.join(xs)`). -/
def strJoin (sep : String) : List String → String
  | [] => ""
  | [x] => x
  | x :: y :: t => x ++ sep ++ strJoin sep (y :: t)

/-! ## Kernel-reducible rational arithmetic

`Rat.add`, `Rat.mul` and `Rat.inv` are irreducible in this toolchain, so the
embeddings below compute with explicit numerator/denominator formulas through
`Rat.divInt` (which the kernel evaluates).  Bridge lemmas equate these
operations with the standard ones so that theorems can be stated in ordinary
arithmetic language. -/

/-- `10 ^ n` on naturals, by structural recursion. -/
def pow10 : Nat → Nat
  | 0 => 1
  | n + 1 => 10 * pow10 n

/-- Embed an integer into `ℚ`. -/
def qOfInt (n : Int) : ℚ := mkRat n 1

/-- Kernel-reducible addition on `ℚ`. -/
def qAdd (a b : ℚ) : ℚ := Rat.divInt (a.num * b.den + b.num * a.den) (a.den * b.den)

/-- Kernel-reducible subtraction on `ℚ`. -/
def qSub (a b : ℚ) : ℚ := Rat.divInt (a.num * b.den - b.num * a.den) (a.den * b.den)

/-- Kernel-reducible multiplication on `ℚ`. -/
def qMul (a b : ℚ) : ℚ := Rat.divInt (a.num * b.num) (a.den * b.den)

/-- Kernel-reducible division on `ℚ` (division by zero yields zero, as for
the standard `/` on `ℚ`). -/
def qDiv (a b : ℚ) : ℚ := Rat.divInt (a.num * b.den) (a.den * b.num)

/-- Kernel-reducible negation on `ℚ`. -/
def qNeg (a : ℚ) : ℚ := Rat.divInt (-a.num) a.den

/-- Kernel-reducible strict comparison on `ℚ`. -/
def qLtB (a b : ℚ) : Bool := a.num * (b.den : Int) < b.num * (a.den : Int)

/-- Kernel-reducible absolute value on `ℚ`. -/
def qAbs (a : ℚ) : ℚ := if qLtB a (qOfInt 0) then qNeg a else a

/-- Kernel-reducible non-strict comparison on `ℚ`. -/
def qLeB (a b : ℚ) : Bool := a.num * (b.den : Int) ≤ b.num * (a.den : Int)

/-- Kernel-reducible binary maximum on `ℚ`. -/
def qMax (a b : ℚ) : ℚ := if qLeB a b then b else a

/-! ## Python numeric literal parsing and fixed-point formatting -/

/-- Value of a character-list of decimal digits; `none` if any character is
not a digit.  The empty list maps to `some 0` (callers rule the empty case
in or out themselves). -/
def digitsVal? (l : List Char) : Option Nat :=
  if l.all Char.isDigit then
    some (l.foldl (fun a c => a * 10 + (c.toNat - 48)) 0)
  else none

/-- Split a character list at the first `e`/`E` (exponent marker). -/
def splitExpAux : List Char → List Char × Option (List Char)
  | [] => ([], none)
  | c :: t =>
    if c = 'e' ∨ c = 'E' then ([], some t)
    else
      let r := splitExpAux t
      (c :: r.1, r.2)

/-- Split a character list at the first `.`. -/
def splitDotAux : List Char → List Char × Option (List Char)
  | [] => ([], none)
  | c :: t =>
    if c = '.' then ([], some t)
    else
      let r := splitDotAux t
      (c :: r.1, r.2)

/-- Strip an optional leading sign, returning (negative?, rest). -/
def splitSign : List Char → Bool × List Char
  | '-' :: t => (true, t)
  | '+' :: t => (false, t)
  | l => (false, l)

/-- Parse an optionally signed non-empty digit string as an integer. -/
def signedDigits? (l : List Char) : Option Int :=
  let (neg, l) := splitSign l
  if l = [] then none
  else (digitsVal? l).map fun n => if neg then -(n : Int) else (n : Int)

/-- Model of Python `float(s)` on the decimal / scientific literals produced
by this program's grammars: optional sign, digits with an optional single
decimal point (at least one digit overall), and an optional exponent part.
Other accepted Python spellings (`inf`, `nan`, underscores) do not occur in
the inputs the code feeds to `float` and are parsed as `none`. -/
def pyFloat? (s : String) : Option ℚ :=
  let cs := (pyStrip s).data
  let (neg, cs) := splitSign cs
  let (mant, ex) := splitExpAux cs
  let (ip, fp) := splitDotAux mant
  let frac := fp.getD []
  if ip = [] ∧ frac = [] then none
  else
    match digitsVal? ip, digitsVal? frac with
    | some i, some f =>
      let m : ℚ := Rat.divInt ((i : Int) * (pow10 frac.length : Int) + (f : Int)) (pow10 frac.length : Int)
      let m := if neg then qNeg m else m
      match ex with
      | none => some m
      | some e =>
        match signedDigits? e with
        | some k =>
          some (if 0 ≤ k then qMul m (qOfInt (pow10 k.toNat : Nat))
                else qDiv m (qOfInt (pow10 (-k).toNat : Nat)))
        | none => none
    | _, _ => none

/-- Model of Python `int(s)` for optionally signed decimal literals. -/
def pyInt? (s : String) : Option Int :=
  let cs := (pyStrip s).data
  let (neg, cs) := splitSign cs
  if cs = [] then none
  else (digitsVal? cs).map fun n => if neg then -(n : Int) else (n : Int)

/-- Decimal digits of a natural number, most significant first. -/
def natToStrAux : Nat → Nat → List Char
  | 0, _ => []
  | fuel + 1, n =>
    if n = 0 then []
    else natToStrAux fuel (n / 10) ++ [Char.ofNat (48 + n % 10)]

/-- Decimal rendering of a natural number. -/
def natToStr (n : Nat) : String :=
  if n = 0 then "0" else ⟨natToStrAux (n + 1) n⟩

/-- Decimal rendering of an integer. -/
def intToStr (i : Int) : String :=
  if i < 0 then "-" ++ natToStr i.natAbs else natToStr i.natAbs

/-- Left-pad a string with `'0'` to the given length. -/
def leftPadZeros (s : String) (d : Nat) : String :=
  ⟨List.replicate (d - s.data.length) '0'⟩ ++ s

/-- Model of Python `format(x, '.df')` / f-string formatting on exact decimal
values: the magnitude `|q| = a / b` is scaled by `10^d` and rounded to the
nearest natural number (`(2 a 10^d + b) / (2 b)` is exactly
`round (|q| * 10^d)` for the nonnegative magnitude), then printed with `d`
digits after the point (no point when `d = 0`).  The values this program
formats are never exact rounding ties, so the tie-break convention
(half-even in Python, half-up here) is immaterial. -/
def formatFixed (q : ℚ) (d : Nat) : String :=
  let sign := if q.num < 0 then "-" else ""
  let a := q.num.natAbs * pow10 d
  let m : Nat := (2 * a + q.den) / (2 * q.den)
  if d = 0 then sign ++ natToStr m
  else sign ++ natToStr (m / pow10 d) ++ "." ++ leftPadZeros (natToStr (m % pow10 d)) d

/-! ## TEM header scanner (`FileProcessor.parse_file_headers`)

The scan state mirrors the `results` dictionary of the Python function plus
its local variables `times`, `times_width` and `current_unit`.  Fields that
Python initialises to `None` are `Option`s; `tx_waveform` starts as the
string `"Undefined"` exactly as in the source. -/

structure TemScan where
  base_frequency : Option String := none
  units : Option String := none
  duty_cycle : Option String := none
  tx_waveform : String := "Undefined"
  system_info : Option String := none
  survey_config : Option String := none
  data_type : Option String := none
  offtime : Option String := none
  times_start : List ℚ := []
  times_end : List ℚ := []
  num_channels : Option Nat := none
  header_lines : List String := []
  times : Option (List ℚ) := none
  times_width : Option (List ℚ) := none
  current_unit : String := "ms"
deriving DecidableEq

/-- Value extraction for the `/TIMESSTART` and `/TIMESEND` directive lines:
`line.split('=')[1].strip()` when the line has an `=`, otherwise
`line.split(marker)[1].strip()`, then `.strip('(ms)').strip('(us)').strip()`,
then comma-split, strip, drop empty fields and parse each field as a float.
A `none` result models the exception swallowed by the `except` clause (the
targeted `results` entry is left unchanged there). -/
def parseDirectiveValues (line marker : String) : Option (List ℚ) :=
  let values_str :=
    if containsSub line "=" then pyStrip ((pySplit line "=").getD 1 "")
    else pyStrip ((pySplit line marker).getD 1 "")
  let values_str := pyStrip (pyStripChars (pyStripChars values_str "(ms)") "(us)")
  ((pySplit values_str ",").map pyStrip |>.filter (fun x => x ≠ "")).mapM pyFloat?

/-- Value extraction for `/TIMES(..)=` and `/TIMESWIDTH(..)=` lines:
`line.split('=')[1].strip()` then comma-split/strip/filter/parse. -/
def parseEqValues (line : String) : Option (List ℚ) :=
  let values_str := pyStrip ((pySplit line "=").getD 1 "")
  ((pySplit values_str ",").map pyStrip |>.filter (fun x => x ≠ "")).mapM pyFloat?

/-- Float-parse a value and format it with `d` decimals, keeping the raw
string on a parse failure (the `try: float(value) ... except ValueError`
idiom of the generic key handler). -/
def floatFmtOr (value : String) (d : Nat) : String :=
  match pyFloat? value with
  | some q => formatFixed q d
  | none => value

/-- Generic key/value handling: the key is upper-cased and matched against
the fixed synonym table; the value is stripped of `'," &'`.  Numeric fields
(`base_frequency`, `duty_cycle`) try a float parse and format the result
(`'.3f'` / `'.0f'`), keeping the raw string on failure. -/
def applyKeyValue (s : TemScan) (rawKey rawValue : String) : TemScan :=
  let key := pyUpper rawKey
  let value := pyStripChars rawValue ",\" &"
  if key = "BFREQ" ∨ key = "BASEFREQ" ∨ key = "BASEFREQUENCY" then
    { s with base_frequency := some (floatFmtOr value 3) }
  else if key = "UNITS" then
    { s with units := some (pyStripChars value "()") }
  else if key = "TXWAVEFORM" then
    { s with tx_waveform := value }
  else if key = "DUTYCYCLE" ∨ key = "DUTY" then
    { s with duty_cycle := some (floatFmtOr value 0) }
  else if key = "INSTRUMENT" ∨ key = "SYSTEM" ∨ key = "PRIMARYREMOVED" then
    { s with system_info := some value }
  else if key = "CONFIG" ∨ key = "CONFIGURATION" then
    { s with survey_config := some value }
  else if key = "DATATYPE" then
    { s with data_type := some value }
  else if key = "OFFTIME" then
    { s with offtime := some value }
  else s

/-- One whitespace token of a line: skipped if `'&'` or empty, otherwise
split on the first `'='`, else on the first `':'` (the Python loop over
`['=', ':']` with `break`). -/
def processToken (s : TemScan) (part : String) : TemScan :=
  if part = "&" ∨ part = "" then s
  else
    match (pySplitFirst part "=").2 with
    | some v => applyKeyValue s (pySplitFirst part "=").1 v
    | none =>
      match (pySplitFirst part ":").2 with
      | some v => applyKeyValue s (pySplitFirst part ":").1 v
      | none => s

/-- One line of the header file: strip, skip blank lines, record the line,
run the `/TIMESSTART` / `/TIMESEND` / `/TIMES(..)=` / `/TIMESWIDTH(..)=`
elif-chain, then the generic token scan (which Python runs for every
non-blank line). -/
def processTemLine (s : TemScan) (rawLine : String) : TemScan :=
  let line := pyStrip rawLine
  if line = "" then s
  else
    let s := { s with header_lines := s.header_lines ++ [line] }
    let s :=
      if containsSub line "/TIMESSTART" then
        match parseDirectiveValues line "/TIMESSTART" with
        | some vs => { s with times_start := vs }
        | none => s
      else if containsSub line "/TIMESEND" then
        match parseDirectiveValues line "/TIMESEND" with
        | some vs => { s with times_end := vs, num_channels := some vs.length }
        | none => s
      else if containsSub line "/TIMES(ms)=" ∨ containsSub line "/TIMES(us)=" then
        let s := if containsSub line "us" then { s with current_unit := "us" } else s
        match parseEqValues line with
        | some vs => { s with times := some vs }
        | none => s
      else if containsSub line "/TIMESWIDTH(ms)=" ∨ containsSub line "/TIMESWIDTH(us)=" then
        match parseEqValues line with
        | some vs => { s with times_width := some vs }
        | none => s
      else s
    (pySplitWs line).foldl processToken s

/-- The truthiness test `if times and times_width and len(times) ==
len(times_width)` guarding the TIMES/TIMESWIDTH post-processing:
both present and non-empty (Python's empty list is falsy) with equal
lengths. -/
def validTW : Option (List ℚ) → Option (List ℚ) → Bool
  | some t, some w => ¬t.isEmpty && ¬w.isEmpty && t.length = w.length
  | _, _ => false

/-- `us → ms` conversion applied to both arrays before combining. -/
def convertUnit (unit : String) (l : List ℚ) : List ℚ :=
  if unit = "us" then l.map (fun t => qDiv t (qOfInt 1000)) else l

/-- Post-processing after the line loop: TIMES/TIMESWIDTH reconciliation
(which overwrites `times_start`/`times_end` whenever the guard holds),
then the duty-cycle fallback. -/
def postProcessTem (s : TemScan) : TemScan :=
  let s :=
    if validTW s.times s.times_width then
      let t := convertUnit s.current_unit ((s.times).getD [])
      let w := convertUnit s.current_unit ((s.times_width).getD [])
      { s with times_start := List.zipWith qSub t w,
               times_end := List.zipWith qAdd t w,
               num_channels := some ((s.times).getD []).length }
    else s
  if s.duty_cycle = none ∨ s.duty_cycle = some "" then
    if s.tx_waveform = "UTEM" then { s with duty_cycle := some "100" }
    else { s with duty_cycle := some "Undefined" }
  else s

/-- The line-scanning loop of `parse_file_headers` (state after the last
line, before post-processing). -/
def scanTemLines (lines : List String) : TemScan :=
  lines.foldl processTemLine {}

/-- The whole of `parse_file_headers` on the list of lines of the file. -/
def parseFileHeaders (lines : List String) : TemScan :=
  postProcessTem (scanTemLines lines)

/-! ## Waveform descriptor builder (`FileProcessor._generate_waveform_csv`) -/

/-- Result of `_generate_waveform_csv` before any file-system interaction:
the target file name, the waveform name, and the CSV rows. -/
structure WaveformOut where
  filename : String
  name : String
  rows : List (List String)
deriving DecidableEq

/-- The duty-cycle-based name prefix: parse the stripped duty cycle as a
float; distance from 50 below 1e-3 gives `50_Square`, any other parse
result or a parse failure gives `Square`. -/
def dutyNamePart (duty_cycle : String) : String :=
  match pyFloat? (pyStrip duty_cycle) with
  | some d =>
    if qLtB (qAbs (qSub d (qOfInt 50))) (mkRat 1 1000) then "50_Square" else "Square"
  | none => "Square"

/-- The duty-cycle-based file/waveform naming pair
(`f"{prefix}_{base_freq}.csv"`, `f"{prefix}_{base_freq}"`). -/
def dutyBasedNames (base_freq duty_cycle : String) : String × String :=
  (dutyNamePart duty_cycle ++ "_" ++ base_freq ++ ".csv",
   dutyNamePart duty_cycle ++ "_" ++ base_freq)

/-- The three fixed CSV bodies of `_generate_waveform_csv`. -/
def utemContent (name bf : String) : List (List String) :=
  [["Waveform Name", name], ["BaseFrequency", bf],
   ["Waveform Zero Time", "0.0000"], ["Scaled Time", "Current"],
   ["0.0000", "-1.000000"], ["0.0001", "1.000000"], ["0.5000", "1.000000"]]

def halfDutyContent (name bf : String) : List (List String) :=
  [["Waveform Name", name], ["BaseFrequency", bf],
   ["Waveform Zero Time", "0.2501"], ["Scaled Time", "Current"],
   ["0.0000", "0.000000"], ["0.0001", "1.000000"], ["0.2500", "1.000000"],
   ["0.2501", "0.000000"], ["0.5000", "0.000000"]]

def fullDutyContent (name bf : String) : List (List String) :=
  [["Waveform Name", name], ["BaseFrequency", bf],
   ["Waveform Zero Time", "0.0000"], ["Scaled Time", "Current"],
   ["0.0000", "-1.000000"], ["0.0001", "1.000000"], ["0.5000", "1.000000"]]

/-- `_generate_waveform_csv` up to (but not including) the file write:
`none` models the `return None` paths (missing/falsy base frequency, or an
unhandled `tx_waveform`).  A `None` base frequency would be rendered as the
string `"None"` by the f-strings, which the `base_freq.getD "None"` mirrors;
those names are discarded by the falsy check exactly as in the source. -/
def genWaveform (base_freq : Option String) (tx_waveform duty_cycle : String) :
    Option WaveformOut :=
  let bf := base_freq.getD "None"
  let names := dutyBasedNames bf duty_cycle
  if base_freq = none ∨ base_freq = some "" then none
  else if tx_waveform = "UTEM" then
    some ⟨"UTEM_" ++ bf ++ ".csv", "UTEM_" ++ bf, utemContent ("UTEM_" ++ bf) bf⟩
  else if tx_waveform = "Undefined" then
    if containsSub names.2 "50_Square" then
      some ⟨names.1, names.2, halfDutyContent names.2 bf⟩
    else
      some ⟨names.1, names.2, fullDutyContent names.2 bf⟩
  else none

/-! ## File-system model for the waveform write

`_generate_waveform_csv` checks an existing target file by re-parsing it
(`line.strip().split(',')` per line) and comparing with the rows it is
about to write; on a match the rewrite is skipped.  The file system is a
map from paths to file contents; `csv.writer` output is modelled by
comma-joined rows terminated with CRLF (the writer's default). -/

def Fs : Type := String → Option String

/-- Serialisation performed by `csv.writer.writerows` on these rows (no
field needs quoting escapes to round-trip through the comparison; fields
that would need them simply fail the comparison and are rewritten, which
the model reproduces byte-for-byte on the serialised form). -/
def csvSerialize (rows : List (List String)) : String :=
  String.join (rows.map (fun r => strJoin "," r ++ "\x0d\n"))

/-- The re-parse `[line.strip().split(',') for line in f]` of a file body,
with Python's line iteration (a trailing newline does not create an empty
final line). -/
def csvReadRows (content : String) : List (List String) :=
  let ls := pySplit content "\n"
  let ls := if ls.getLast? = some "" then ls.dropLast else ls
  ls.map (fun l => pySplit (pyStrip l) ",")

/-- Waveform path used by the batch driver. -/
def waveformPath (filename : String) : String :=
  "Provus_Options/Waveforms/" ++ filename

/-- `_generate_waveform_csv` with its file-system effects: returns the new
file system, the returned filename (`none` for the no-output paths) and
whether a write was performed. -/
def genWaveformFs (base_freq : Option String) (tx_waveform duty_cycle : String)
    (fs : Fs) : Fs × Option String × Bool :=
  match genWaveform base_freq tx_waveform duty_cycle with
  | none => (fs, none, false)
  | some out =>
    let path := waveformPath out.filename
    match fs path with
    | some existing =>
      if csvReadRows existing = out.rows then (fs, some out.filename, false)
      else (Function.update fs path (some (csvSerialize out.rows)), some out.filename, true)
    | none => (Function.update fs path (some (csvSerialize out.rows)), some out.filename, true)

/-! ## Sampling descriptor builder (`FileProcessor._generate_sampling_csv`) -/

/-- The independent unit sniff over the raw header lines. -/
def sniffUs (ls : List String) : Bool :=
  ls.any (fun l =>
    containsSub l "TIMESSTART(us)" || containsSub l "TIMES(us)" || containsSub l "TIMESEND(us)")

/-- The start/end arrays actually used by the sampling CSV: the resolved
arrays, divided by 1000 once more when the sniff fires. -/
def samplingTimesStart (s : TemScan) : List ℚ :=
  if sniffUs s.header_lines then s.times_start.map (fun t => qDiv t (qOfInt 1000))
  else s.times_start

def samplingTimesEnd (s : TemScan) : List ℚ :=
  if sniffUs s.header_lines then s.times_end.map (fun t => qDiv t (qOfInt 1000))
  else s.times_end

/-- `Path(name).stem`: drop the final `.`-suffix if there is one. -/
def pathStem (s : String) : String :=
  let parts := pySplit s "."
  if parts.length ≤ 1 then s else strJoin "." parts.dropLast

/-- The fixed unit tables of `FileProcessor.__init__`. -/
def dbdtUnits : List String :=
  ["uV", "uV/A", "uV/Am2", "uV/m2",
   "nV", "nV/A", "nV/Am2", "nV/m2",
   "pV", "pV/A", "pV/Am2", "pV/m2",
   "nT/As", "nT/Asm2",
   "pT/s", "pT/As", "pT/Asm2"]

def bFieldUnits : List String :=
  ["nT", "nT/A", "nT/Am2", "nT/m2",
   "pT", "pT/A", "pT/Am2", "pT/m2",
   "fT", "fT/A", "fT/Am2", "fT/m2", "ppm", "ppmHp", "ppt", "pptHp",
   "%Ht", "%", "ppmHz", "pptHz",
   "ppmHx", "pptHx", "ppmHt", "pptHt",
   "Ohm-m", "S/m"]

/-- `_determine_field_type` (a `None` units value is in neither set). -/
def determineFieldType (units : Option String) : String :=
  match units with
  | some u => if u ∈ dbdtUnits then "dbdt" else "b"
  | none => "b"

/-- `generate_channel_colors`: red `0.25 + 0.05 i`, green `0.75 − 0.05 i`,
blue constant `0.5`, unclamped. -/
def channelColor (i : Nat) : ℚ × ℚ × ℚ :=
  (qAdd (mkRat 1 4) (qMul (qOfInt i) (mkRat 1 20)),
   qSub (mkRat 3 4) (qMul (qOfInt i) (mkRat 1 20)),
   mkRat 1 2)

/-- The sampling name derived from the waveform base name (file-name stem):
a base name containing `UTEM` is passed through unchanged; otherwise the
`_`-split parts give the frequency (`parts[2]` for the `50_...` form,
`parts[1]` otherwise), which is float-parsed and reformatted with 3
decimals.  A `none` result models the exception path (missing part or
unparseable float) caught by the enclosing `except`. -/
def samplingNameFromBase (base_name : String) (num_channels : Nat) : Option String :=
  if containsSub base_name "UTEM" then
    some (base_name ++ "_" ++ natToStr num_channels ++ "ch")
  else
    let parts := pySplit base_name "_"
    if parts.getD 0 "" = "50" then
      match pyFloat? (parts.getD 2 "") with
      | some f => some ("50_Square_" ++ formatFixed f 3 ++ "_" ++ natToStr num_channels ++ "ch")
      | none => none
    else
      match pyFloat? (parts.getD 1 "") with
      | some f => some ("Square_" ++ formatFixed f 3 ++ "_" ++ natToStr num_channels ++ "ch")
      | none => none

/-- The sampling name computed by `_generate_sampling_csv` from the
waveform file name. -/
def genSamplingName (waveform_filename : String) (num_channels : Nat) : Option String :=
  samplingNameFromBase (pathStem waveform_filename) num_channels

/-- The full `_generate_sampling_csv`: name, file lines, and the returned
filename.  `none` models the `except`-swallowed exception paths (missing
`num_channels`, empty time arrays, missing channels, bad name parts); on
those paths the source returns `None` (the partially written file, if any,
carries no further claim-relevant information). -/
def genSamplingCsv (s : TemScan) (waveform_filename : String) :
    Option (String × List String) :=
  let ts := samplingTimesStart s
  let te := samplingTimesEnd s
  match s.num_channels with
  | none => none
  | some n =>
    match genSamplingName waveform_filename n with
    | none => none
    | some name =>
      match ts.head?, te.head? with
      | some t0, some e0 =>
        if n ≤ ts.length ∧ n ≤ te.length then
          some (name ++ ".csv",
            ["Sampling Name," ++ name,
             "Primary Time Gate," ++ formatFixed t0 3 ++ "," ++ formatFixed e0 3,
             "Field Type," ++ determineFieldType s.units,
             "Channel Name,ChStart,ChEnd,Red,Green,Blue,LineWt"] ++
            (List.range n).map (fun i =>
              "Ch" ++ natToStr (i + 1) ++ "," ++ formatFixed (ts.getD i 0) 3 ++ ","
                ++ formatFixed (te.getD i 0) 3 ++ ","
                ++ formatFixed (channelColor i).1 6 ++ ","
                ++ formatFixed (channelColor i).2.1 6 ++ ","
                ++ formatFixed (channelColor i).2.2 6 ++ ",2"))
        else none
      | _, _ => none

/-! ## MCG parser (`mcg_parser.parse_mcg_file`)

The regex-extraction stage of `parse_mcg_file` fills a `matches` dictionary
with one captured string per pattern that matched; a block or directive that
is absent from the file simply leaves its key out of the dictionary, and the
first later subscript `matches[key]` raises `KeyError`.  The embedding takes
that dictionary (an `Option String` per pattern) as its input and models the
rest of the function faithfully: writes already performed when an exception
is raised are kept (Python's file writes persist when the exception
propagates), and the exception is the `Option String` error component. -/

structure McgMatches where
  waveform_points : Option String := none
  base_frequency : Option String := none
  timing_mark : Option String := none
  channel_times : Option String := none
  units : Option String := none
  unit_types : Option String := none
deriving DecidableEq

/-- One data line of a block: 2nd and 3rd whitespace tokens as floats
(`float(line[1])`, `float(line[2])`); `none` models the uncaught
`IndexError` / `ValueError`. -/
def mcgParseDataLine (l : String) : Option (ℚ × ℚ) :=
  let toks := pySplitWs (pyStrip l)
  match toks.get? 1, toks.get? 2 with
  | some a, some b =>
    match pyFloat? a, pyFloat? b with
    | some x, some y => some (x, y)
    | _, _ => none
  | _, _ => none

/-- All data lines of a block string (`block.strip().split('\n')`). -/
def mcgBlockData (block : String) : Option (List (ℚ × ℚ)) :=
  ((pySplit (pyStrip block) "\n").mapM mcgParseDataLine)

/-- One `Unit Types` entry: `num, unit = entry.strip().split('=')` (exactly
two parts or `ValueError`), `int(num)`, `unit.strip()`. -/
def mcgUnitEntry (entry : String) : Option (Int × String) :=
  match pySplit (pyStrip entry) "=" with
  | [a, b] =>
    match pyInt? a with
    | some n => some (n, pyStrip b)
    | none => none
  | _ => none

/-- The `Unit Types` directive parsed into an index→unit-name association
(comma-split entries; a later duplicate index overwrites an earlier one in
the Python dict, hence the reversed lookup below). -/
def mcgUnitMap (ut : String) : Option (List (Int × String)) :=
  (pySplit ut ",").mapM mcgUnitEntry

/-- The fixed rate-of-change unit list of the MCG parser. -/
def mcgDbdtUnits : List String := ["uV", "nV", "pV", "nT/s", "pT/s"]

/-- The waveform-point times of the block raise `ZeroDivisionError` during
scaling exactly when the maximum time is zero while some time is non-zero
(`0.5 * time / max_time` with `time != 0` guarded). -/
def mcgScaleDivZero (points : List (ℚ × ℚ)) : Bool :=
  decide ((points.map Prod.fst).foldl qMax ((points.map Prod.fst).headD (qOfInt 0)) = qOfInt 0)
    && points.any (fun p => p.1 ≠ qOfInt 0)

def mcgWaveformPath (base : String) : String :=
  "Provus_Options/Waveforms/" ++ base ++ ".csv"

def mcgSamplingPath (base : String) (n : Nat) : String :=
  "Provus_Options/Channel_Sampling_Schemes/" ++ base ++ "_" ++ natToStr n ++ "ch.csv"

/-- `parse_mcg_file` after regex extraction: the returned list is the file
writes performed (path and rows, in order), the second component is `none`
on success and the exception name otherwise.  The execution order follows
the source: waveform block processing and the waveform CSV write happen
before the channel block, `Units` and `Unit Types` are touched, so those
failures leave the waveform file already written. -/
def parseMcgFile (m : McgMatches) (base : String) :
    List (String × List (List String)) × Option String :=
  match m.waveform_points with
  | none => ([], some "KeyError: waveform_points")
  | some wp =>
    match mcgBlockData wp with
    | none => ([], some "ValueError: waveform points")
    | some points =>
      let maxTime := (points.map Prod.fst).foldl qMax ((points.map Prod.fst).headD (qOfInt 0))
      match mcgScaleDivZero points with
      | true => ([], some "ZeroDivisionError")
      | false =>
        let scaled := points.map (fun p =>
          (if p.1 ≠ qOfInt 0 then qDiv (qMul (mkRat 1 2) p.1) maxTime else qOfInt 0, p.2))
        let wpath := mcgWaveformPath base
        match m.base_frequency with
        | none => ([(wpath, [["Waveform Name", base]])], some "KeyError: base_frequency")
        | some bf =>
          match m.timing_mark with
          | none =>
            ([(wpath, [["Waveform Name", base], ["Base Frequency", bf]])],
             some "KeyError: timing_mark")
          | some tm =>
            let wrows :=
              [["Waveform Name", base], ["Base Frequency", bf],
               ["Waveform Zero Time", tm], ["Scaled Time", "Current"]] ++
              scaled.map (fun p => [formatFixed p.1 6, formatFixed p.2 6])
            match m.channel_times with
            | none => ([(wpath, wrows)], some "KeyError: channel_times")
            | some ct =>
              match mcgBlockData ct with
              | none => ([(wpath, wrows)], some "ValueError: channel times")
              | some rawChannels =>
                let channels := rawChannels.map (fun p =>
                  (qMul p.1 (qOfInt 1000), qMul p.2 (qOfInt 1000)))
                match m.units with
                | none => ([(wpath, wrows)], some "KeyError: units")
                | some us =>
                  match pyInt? us with
                  | none => ([(wpath, wrows)], some "ValueError: units")
                  | some unitNum =>
                    match m.unit_types with
                    | none => ([(wpath, wrows)], some "KeyError: unit_types")
                    | some ut =>
                      match mcgUnitMap ut with
                      | none => ([(wpath, wrows)], some "ValueError: unit types")
                      | some umap =>
                        match umap.reverse.lookup unitNum with
                        | none => ([(wpath, wrows)], some "KeyError: unit lookup")
                        | some unitName =>
                          let fieldType :=
                            if unitName ∈ mcgDbdtUnits then "dbdt" else "b"
                          let n := channels.length
                          let srows :=
                            [["Sampling Name", base ++ "_" ++ natToStr n ++ "ch"],
                             ["Primary Time Gate",
                              formatFixed (channels.headD (qOfInt 0, qOfInt 0)).1 3,
                              formatFixed (channels.headD (qOfInt 0, qOfInt 0)).2 3],
                             ["Field Type", fieldType],
                             ["Channel Name", "ChStart", "ChEnd", "Red", "Green", "Blue", "LineWt"]] ++
                            (List.range n).map (fun i =>
                              let p := channels.getD i (qOfInt 0, qOfInt 0)
                              ["Ch" ++ natToStr (i + 1),
                               formatFixed p.1 3, formatFixed p.2 3,
                               formatFixed (qAdd (mkRat 1 4) (qMul (qOfInt i) (mkRat 1 20))) 2,
                               formatFixed (qSub (mkRat 3 4) (qMul (qOfInt i) (mkRat 1 20))) 2,
                               "0.50", "2"])
                          ([(wpath, wrows), (mcgSamplingPath base n, srows)], none)

/-! ## PEM parser (`FileProcessor.parse_pem_file`) and its pipeline

`parse_pem_file` raises on a malformed survey line (uncaught `IndexError` /
`ValueError`) and on a missing survey line (`ValueError("Could not find
survey parameters line")`); the caller in `AnalysisPage.process_files`
catches any exception and produces no output files for that input. -/

structure PemSurveyParams where
  survey_mode : String
  units : String
  sync_type : String
  time_base : ℚ
  ramp_time : Int
  n_gates : Int
  n_readings : Int
deriving DecidableEq

/-- The seven positional fields of the survey-parameter line; `none` models
the uncaught `IndexError` / `ValueError` for fewer than seven whitespace
tokens or unparseable numeric fields. -/
def parseSurveyLine (line : String) : Option PemSurveyParams :=
  let parts := pySplitWs line
  match parts.get? 0, parts.get? 1, parts.get? 2, parts.get? 3,
      parts.get? 4, parts.get? 5, parts.get? 6 with
  | some a, some b, some c, some d, some e, some f, some g =>
    match pyFloat? d, pyInt? e, pyInt? f, pyInt? g with
    | some tb, some rt, some ng, some nr => some ⟨a, b, c, tb, rt, ng, nr⟩
    | _, _, _, _ => none
  | _, _, _, _, _, _, _ => none

/-- Loop state of `parse_pem_file`: found survey parameters, accumulated
time windows, whether the window section started, whether the `$` break
fired, and a pending uncaught exception. -/
structure PemScan where
  survey : Option PemSurveyParams := none
  tw : List ℚ := []
  found : Bool := false
  stopped : Bool := false
  err : Option String := none
deriving DecidableEq

/-- One line of `parse_pem_file`'s loop. -/
def pemStep (st : PemScan) (rawLine : String) : PemScan :=
  if st.err.isSome ∨ st.stopped then st
  else
    let line := pyStrip rawLine
    if line = "" then st
    else if st.survey = none ∧ containsSub line "Metric" ∧ containsSub line "Cable" then
      match parseSurveyLine line with
      | some p => { st with survey := some p }
      | none => { st with err := some "ValueError: survey line" }
    else
      let st :=
        if line.data.head? = some '-' ∧ containsSub (pyLower line) "e" ∧ st.found = false then
          { st with found := true }
        else st
      if st.found then
        if containsSub line "$" then { st with stopped := true }
        else
          let toks := (pySplitWs line).filter (fun x =>
            containsSub (pyLower x) "e" || containsSub (pyLower x) "e-")
          match toks.mapM pyFloat? with
          | some vs => { st with tw := st.tw ++ vs }
          | none => st
      else st

/-- Outcome of `parse_pem_file`. -/
inductive PemParse where
  | ok (base_freq ramp_time : ℚ) (params : PemSurveyParams) (tw : List ℚ)
  | fail (msg : String)
deriving DecidableEq

/-- The whole of `parse_pem_file` on the list of lines of the file:
`base_freq = 1 / (4 * time_base / 1000)`, `ramp_time = ramp_time_µs / 1e6`.
A zero `time_base` would raise `ZeroDivisionError` in the source and is a
failure here. -/
def parsePemFile (content : List String) : PemParse :=
  let st := content.foldl pemStep {}
  match st.err with
  | some e => .fail e
  | none =>
    match st.survey with
    | none => .fail "Could not find survey parameters line"
    | some p =>
      if p.time_base = qOfInt 0 then .fail "ZeroDivisionError"
      else
        .ok (qDiv (qOfInt 1) (qDiv (qMul (qOfInt 4) p.time_base) (qOfInt 1000)))
          (qDiv (qOfInt p.ramp_time) (qOfInt 1000000)) p st.tw

/-! ## PEM waveform synthesizer (`generate_pem_waveform_csv`) -/

/-- The fixed 12-point analytic ramp curve. -/
def pemPoints (ramp_time : ℚ) : List (ℚ × ℚ) :=
  [(qOfInt 0, qOfInt 0),
   (mkRat 2 100, mkRat 550671036 1000000000),
   (mkRat 4 100, mkRat 798103482 1000000000),
   (mkRat 6 100, mkRat 909282047 1000000000),
   (mkRat 8 100, mkRat 959237796 1000000000),
   (mkRat 10 100, mkRat 981684361 1000000000),
   (mkRat 14 100, mkRat 996302136 1000000000),
   (mkRat 16 100, mkRat 998338443 1000000000),
   (mkRat 20 100, qOfInt 1),
   (qSub (mkRat 25 100) ramp_time, qOfInt 1),
   (mkRat 25 100, qOfInt 0),
   (mkRat 50 100, qOfInt 0)]

/-- `zero_time = next((t for (t, a) in points if a == 0), 0.25)`. -/
def pemZeroTime (ramp_time : ℚ) : ℚ :=
  ((pemPoints ramp_time).find? (fun p => p.2 = qOfInt 0)).map Prod.fst |>.getD (mkRat 25 100)

/-- The rows written by `generate_pem_waveform_csv` (waveform name is the
hard-coded `Crone_15Hz`). -/
def pemWaveformRows (base_freq ramp_time : ℚ) : List (List String) :=
  [["Waveform Name", "Crone_15Hz"],
   ["Time Units", "scaled"],
   ["Base Frequency", formatFixed base_freq 3],
   ["Waveform Zero Time", formatFixed (pemZeroTime ramp_time) 6],
   ["Scaled Time", "Current"]] ++
  (pemPoints ramp_time).map (fun p => [formatFixed p.1 6, formatFixed p.2 6])

/-! ## PEM sampling synthesizer (`generate_pem_sampling_csv`) -/

/-- Channel start in ms: `time_windows[2] if i == 0 else time_windows[i+2]`,
times 1000 (`i` is the 0-based loop index). -/
def pemChStart (tw : List ℚ) (i : Nat) : ℚ :=
  qMul (if i = 0 then tw.getD 2 (qOfInt 0) else tw.getD (i + 2) (qOfInt 0)) (qOfInt 1000)

/-- Channel end in ms: `time_windows[i+3] * 1000`. -/
def pemChEnd (tw : List ℚ) (i : Nat) : ℚ :=
  qMul (tw.getD (i + 3) (qOfInt 0)) (qOfInt 1000)

/-- The three piecewise colour bands keyed by the 1-based channel number. -/
def pemChColor (ch : Nat) : ℚ × ℚ × ℚ :=
  if ch ≤ 12 then
    (mkRat 996094 1000000,
     qAdd (mkRat 144533 1000000) (qMul (qOfInt (ch - 1)) (mkRat 708 10000)),
     qSub (mkRat 652326 1000000) (qMul (qOfInt (ch - 1)) (mkRat 545 10000)))
  else if ch ≤ 15 then
    (qSub (mkRat 697813 1000000) (qMul (qOfInt (ch - 13)) (mkRat 2988 10000)),
     mkRat 996094 1000000,
     qOfInt 0)
  else
    (qOfInt 0,
     qSub (mkRat 996094 1000000) (qMul (qOfInt (ch - 16)) (mkRat 988 10000)),
     qAdd (mkRat 198521 1000000) (qMul (qOfInt (ch - 16)) (mkRat 2988 10000)))

/-- The per-channel rows (`if len(time_windows) > 3` guard included). -/
def pemChannelRows (tw : List ℚ) : List (List String) :=
  if 3 < tw.length then
    (List.range (tw.length - 3)).map (fun i =>
      let ch := i + 1
      let c := pemChColor ch
      ["Ch" ++ natToStr ch,
       formatFixed (pemChStart tw i) 3, formatFixed (pemChEnd tw i) 3,
       formatFixed c.1 6, formatFixed c.2.1 6, formatFixed c.2.2 6, "2"])
  else []

/-- All rows written by `generate_pem_sampling_csv`, in order.  With fewer
than two time windows the final `PP` row's subscripts raise `IndexError`
after the earlier rows are already written, so the row list is truncated
exactly there (the caller swallows the logged exception). -/
def pemSamplingRows (tw : List ℚ) : List (List String) :=
  [["Sampling Name", "Crone_15Hz_21ch"]] ++
  (if 2 ≤ tw.length then
    [["Primary Time Gate",
      formatFixed (qMul (tw.getD 0 (qOfInt 0)) (qOfInt 1000)) 3,
      formatFixed (qMul (tw.getD 1 (qOfInt 0)) (qOfInt 1000)) 3]]
   else [["Primary Time Gate", "-0.2", "-0.1"]]) ++
  [["Field Type", "dBdT"],
   ["Channel Name", "ChStart", "ChEnd", "Red", "Green", "Blue", "LineWt"]] ++
  pemChannelRows tw ++
  (if 2 ≤ tw.length then
    [["PP",
      formatFixed (qMul (tw.getD 0 (qOfInt 0)) (qOfInt 1000)) 3,
      formatFixed (qMul (tw.getD 1 (qOfInt 0)) (qOfInt 1000)) 3,
      "0", "0.299774", "0.996094", "2"]]
   else [])

/-- The PEM branch of `AnalysisPage.process_files`: a parse failure is
caught and produces no output files; a successful parse writes the waveform
and sampling CSVs under the `Crone_{bf:.0f}Hz` file names. -/
def processPem (content : List String) : List (String × List (List String)) :=
  match parsePemFile content with
  | .fail _ => []
  | .ok bf rt _ tw =>
    [("Provus_Options/Waveforms/Crone_" ++ formatFixed bf 0 ++ "Hz.csv",
      pemWaveformRows bf rt),
     ("Provus_Options/Channel_Sampling_Schemes/Crone_" ++ formatFixed bf 0 ++ "Hz_"
        ++ intToStr ((tw.length : Int) - 3) ++ "ch.csv",
      pemSamplingRows tw)]

/-! ## Statement-side definitions: the claimed sampling-name shape and
concrete inputs used in the analyses -/

/-- Python-style `s.startswith(pre)`. -/
def pyStartsWith (s pre : String) : Bool :=
  pre.data.isPrefixOf s.data

/-- Drop a prefix of the given length from a string. -/
def strDrop (s : String) (n : Nat) : String :=
  ⟨s.data.drop n⟩

/-- The sampling-name rule as the claim words it (for comparison with the
code's `samplingNameFromBase`): whatever the prefix shape — `UTEM`,
`Square` or `50_Square` — the frequency embedded in the waveform base name
is float-parsed and reformatted to exactly 3 decimal places. -/
def samplingNameClaimed (base_name : String) (num_channels : Nat) : Option String :=
  if pyStartsWith base_name "50_Square_" then
    (pyFloat? (strDrop base_name 10)).map fun f =>
      "50_Square_" ++ formatFixed f 3 ++ "_" ++ natToStr num_channels ++ "ch"
  else if pyStartsWith base_name "UTEM_" then
    (pyFloat? (strDrop base_name 5)).map fun f =>
      "UTEM_" ++ formatFixed f 3 ++ "_" ++ natToStr num_channels ++ "ch"
  else if pyStartsWith base_name "Square_" then
    (pyFloat? (strDrop base_name 7)).map fun f =>
      "Square_" ++ formatFixed f 3 ++ "_" ++ natToStr num_channels ++ "ch"
  else none

/-- A TEM header containing both the explicit `TIMESSTART`/`TIMESEND`
representation and a complete `TIMES`/`TIMESWIDTH` pair. -/
def temBothRepsFile : List String :=
  ["/TIMESSTART(ms)=1.0,2.0", "/TIMESEND(ms)=1.5,2.5",
   "/TIMES(ms)=5.0", "/TIMESWIDTH(ms)=1.0"]

/-- A TEM header whose time windows are given only by explicit
microsecond-suffixed `TIMESSTART`/`TIMESEND` directives. -/
def temUsExplicitFile : List String :=
  ["/TIMESSTART(us)=2000.0", "/TIMESEND(us)=4000.0", "UNITS=nT", "BFREQ=30.0"]

/-- A TEM header whose `BFREQ` value does not parse as a float (kept raw)
and whose transmitter waveform is `UTEM`. -/
def temRawBfreqUtemFile : List String :=
  ["BFREQ=1.2.3 TXWAVEFORM=UTEM"]

/-- MCG matches with the `CHANNEL TIMES` block absent and every other
pattern present and well-formed. -/
def mcgNoChannelTimes : McgMatches :=
  { waveform_points := some "1 0.0 0.0\x0a2 0.01 1.0",
    base_frequency := some "30.0",
    timing_mark := some "0.0",
    channel_times := none,
    units := some "1",
    unit_types := some "1=nT, 2=uV" }

/-- MCG matches with the `STANDARD WAVEFORM` block absent. -/
def mcgNoWaveform : McgMatches :=
  { waveform_points := none,
    base_frequency := some "30.0",
    timing_mark := some "0.0",
    channel_times := some "1 0.001 0.002",
    units := some "1",
    unit_types := some "1=nT, 2=uV" }

/-- A PEM file with a well-formed survey-parameter line and a
scientific-notation time-window section. -/
def pemDemoFile : List String :=
  ["Some header", "Borehole Metric Crystal 20.833 150 20 1 Cable", "junk",
   "-1.0e-1 2.0e-1", "1.953e-3 3.906e-3 5.0e-3", "$ end"]

/-- A PEM file with no line containing both `Metric` and `Cable`. -/
def pemNoSurveyFile : List String :=
  ["Some header", "Borehole Imperial Crystal 20.833 150 20 1 Wire",
   "-1.0e-1 2.0e-1", "$ end"]

/-- A file system holding exactly the already-written UTEM waveform file. -/
def fsWithUtem : Fs := fun p =>
  if p = waveformPath "UTEM_30.000.csv"
  then some (csvSerialize (utemContent "UTEM_30.000" "30.000"))
  else none

/-- A five-element PEM time-window list (seconds). -/
def pemDemoTw : List ℚ :=
  [mkRat 1 10, mkRat 2 10, mkRat 3 10, mkRat 4 10, mkRat 5 10]


/-! # Theorems

First the bridge lemmas between the kernel-reducible rational operations
and the standard ones, then supporting lemmas, then one theorem per claim
(with its counterexample and witness theorems where applicable). -/

theorem den_cast_pos (a : ℚ) : (0 : ℚ) < (a.den : ℚ) := by
  exact_mod_cast a.den_pos

theorem num_cast_eq (a : ℚ) : (a.num : ℚ) = a * (a.den : ℚ) :=
  (div_eq_iff (den_cast_pos a).ne').mp (Rat.num_div_den a)

theorem qAdd_eq (a b : ℚ) : qAdd a b = a + b := by
  rw [qAdd, Rat.divInt_eq_div]
  push_cast
  rw [div_eq_iff (mul_ne_zero (den_cast_pos a).ne' (den_cast_pos b).ne'),
    num_cast_eq a, num_cast_eq b]
  ring

theorem qSub_eq (a b : ℚ) : qSub a b = a - b := by
  rw [qSub, Rat.divInt_eq_div]
  push_cast
  rw [div_eq_iff (mul_ne_zero (den_cast_pos a).ne' (den_cast_pos b).ne'),
    num_cast_eq a, num_cast_eq b]
  ring

theorem qMul_eq (a b : ℚ) : qMul a b = a * b := by
  rw [qMul, Rat.divInt_eq_div]
  push_cast
  rw [div_eq_iff (mul_ne_zero (den_cast_pos a).ne' (den_cast_pos b).ne'),
    num_cast_eq a, num_cast_eq b]
  ring

theorem qDiv_eq (a b : ℚ) : qDiv a b = a / b := by
  rcases eq_or_ne b 0 with rfl | hb0
  · simp [qDiv, Rat.divInt_eq_div]
  · have hbn : (b.num : ℚ) ≠ 0 := by
      exact_mod_cast Rat.num_ne_zero.mpr hb0
    rw [qDiv, Rat.divInt_eq_div]
    push_cast
    rw [div_eq_div_iff (mul_ne_zero (den_cast_pos a).ne' hbn) hb0,
      num_cast_eq a, num_cast_eq b]
    ring

theorem qNeg_eq (a : ℚ) : qNeg a = -a := by
  rw [qNeg, Rat.divInt_eq_div]
  push_cast
  rw [div_eq_iff (den_cast_pos a).ne', num_cast_eq a]
  ring

theorem qOfInt_eq (n : Int) : qOfInt n = (n : ℚ) := by
  rw [qOfInt, Rat.mkRat_one]

theorem qLtB_iff (a b : ℚ) : qLtB a b = true ↔ a < b := by
  rw [qLtB, decide_eq_true_iff]
  rw [show (a.num * (b.den : Int) < b.num * (a.den : Int)) ↔
      ((a.num * b.den : Int) : ℚ) < ((b.num * a.den : Int) : ℚ) from (Int.cast_lt).symm]
  push_cast
  rw [num_cast_eq a, num_cast_eq b, mul_assoc, mul_assoc,
    mul_comm ((b.den : ℚ)) ((a.den : ℚ))]
  exact mul_lt_mul_right (mul_pos (den_cast_pos a) (den_cast_pos b))

theorem qAbs_eq (a : ℚ) : qAbs a = |a| := by
  rw [qAbs]
  by_cases h : qLtB a (qOfInt 0) = true
  · rw [if_pos h, qNeg_eq]
    rw [qLtB_iff, qOfInt_eq] at h
    rw [abs_of_neg]
    exact_mod_cast h
  · rw [if_neg h, eq_comm]
    rw [qLtB_iff, qOfInt_eq] at h
    push_neg at h
    norm_cast at h
    exact abs_of_nonneg h


/-! ## Supporting lemmas -/

theorem qDiv_thousand (t : ℚ) : qDiv t (qOfInt 1000) = t / 1000 := by
  rw [qDiv_eq, qOfInt_eq]
  norm_num

theorem qMul_thousand (t : ℚ) : qMul t (qOfInt 1000) = t * 1000 := by
  rw [qMul_eq, qOfInt_eq]
  norm_num

theorem convertUnit_eq (u : String) (l : List ℚ) :
    convertUnit u l = if u = "us" then l.map (fun t => t / 1000) else l := by
  unfold convertUnit
  rw [show (fun t => qDiv t (qOfInt 1000)) = fun t : ℚ => t / 1000 from funext qDiv_thousand]

theorem postProcessTem_times_start (s : TemScan) :
    (postProcessTem s).times_start =
      if validTW s.times s.times_width then
        List.zipWith qSub (convertUnit s.current_unit (s.times.getD []))
          (convertUnit s.current_unit (s.times_width.getD []))
      else s.times_start := by
  unfold postProcessTem
  dsimp only
  split_ifs <;> rfl

theorem postProcessTem_times_end (s : TemScan) :
    (postProcessTem s).times_end =
      if validTW s.times s.times_width then
        List.zipWith qAdd (convertUnit s.current_unit (s.times.getD []))
          (convertUnit s.current_unit (s.times_width.getD []))
      else s.times_end := by
  unfold postProcessTem
  dsimp only
  split_ifs <;> rfl

theorem postProcessTem_num_channels (s : TemScan) :
    (postProcessTem s).num_channels =
      if validTW s.times s.times_width then some ((s.times.getD []).length)
      else s.num_channels := by
  unfold postProcessTem
  dsimp only
  split_ifs <;> rfl

theorem zipWith_qSub (t w : List ℚ) :
    List.zipWith qSub t w = List.zipWith (fun a b => a - b) t w := by
  rw [show qSub = fun a b : ℚ => a - b from funext fun a => funext fun b => qSub_eq a b]

theorem zipWith_qAdd (t w : List ℚ) :
    List.zipWith qAdd t w = List.zipWith (fun a b => a + b) t w := by
  rw [show qAdd = fun a b : ℚ => a + b from funext fun a => funext fun b => qAdd_eq a b]

/-! ## Claim C1 -/

/-- C1 (counterexample): in a TEM header carrying both explicit
`/TIMESSTART`/`/TIMESEND` directives and a complete equal-length
`/TIMES`/`/TIMESWIDTH` pair, the line scan parses the explicit arrays
(`[1, 2]` / `[1.5, 2.5]`), but the returned record's resolved times are the
TIMES/TIMESWIDTH reconciliation (`[4]` / `[6]`): representation B is
computed and overwrites representation A, contradicting the claimed
precedence. -/
theorem c1_explicit_precedence_counterexample :
    (scanTemLines temBothRepsFile).times_start = [1, 2] ∧
    (scanTemLines temBothRepsFile).times_end = [mkRat 3 2, mkRat 5 2] ∧
    (scanTemLines temBothRepsFile).times = some [5] ∧
    (scanTemLines temBothRepsFile).times_width = some [1] ∧
    (parseFileHeaders temBothRepsFile).times_start = [4] ∧
    (parseFileHeaders temBothRepsFile).times_end = [6] ∧
    (parseFileHeaders temBothRepsFile).times_start ≠ [1, 2] := by
  decide

/-- C1 (amended): the precedence is the reverse of the claim.  When the
scan does not yield a complete non-empty equal-length TIMES/TIMESWIDTH
pair, the resolved times are exactly the arrays parsed from the explicit
directives; but when such a pair is present, the representation-B
reconciliation IS computed and overwrites the explicit arrays. -/
theorem c1_times_resolution_precedence (lines : List String) :
    (validTW (scanTemLines lines).times (scanTemLines lines).times_width = false →
      (parseFileHeaders lines).times_start = (scanTemLines lines).times_start ∧
      (parseFileHeaders lines).times_end = (scanTemLines lines).times_end) ∧
    (validTW (scanTemLines lines).times (scanTemLines lines).times_width = true →
      (parseFileHeaders lines).times_start =
        List.zipWith (fun a b => a - b)
          (convertUnit (scanTemLines lines).current_unit ((scanTemLines lines).times.getD []))
          (convertUnit (scanTemLines lines).current_unit ((scanTemLines lines).times_width.getD [])) ∧
      (parseFileHeaders lines).times_end =
        List.zipWith (fun a b => a + b)
          (convertUnit (scanTemLines lines).current_unit ((scanTemLines lines).times.getD []))
          (convertUnit (scanTemLines lines).current_unit ((scanTemLines lines).times_width.getD []))) := by
  constructor
  · intro h
    rw [parseFileHeaders, postProcessTem_times_start, postProcessTem_times_end, h]
    exact ⟨if_neg (by simp), if_neg (by simp)⟩
  · intro h
    rw [parseFileHeaders, postProcessTem_times_start, postProcessTem_times_end, h]
    rw [if_pos rfl, if_pos rfl, zipWith_qSub, zipWith_qAdd]
    exact ⟨rfl, rfl⟩

/-- C1 (witness for the amended theorem): on the two-representation file
the TIMES/TIMESWIDTH guard holds and the overwrite formula applies. -/
theorem c1_times_resolution_precedence_witness :
    validTW (scanTemLines temBothRepsFile).times (scanTemLines temBothRepsFile).times_width = true ∧
    ((parseFileHeaders temBothRepsFile).times_start =
      List.zipWith (fun a b => a - b)
        (convertUnit (scanTemLines temBothRepsFile).current_unit
          ((scanTemLines temBothRepsFile).times.getD []))
        (convertUnit (scanTemLines temBothRepsFile).current_unit
          ((scanTemLines temBothRepsFile).times_width.getD [])) ∧
     (parseFileHeaders temBothRepsFile).times_end =
      List.zipWith (fun a b => a + b)
        (convertUnit (scanTemLines temBothRepsFile).current_unit
          ((scanTemLines temBothRepsFile).times.getD []))
        (convertUnit (scanTemLines temBothRepsFile).current_unit
          ((scanTemLines temBothRepsFile).times_width.getD []))) :=
  ⟨by decide, (c1_times_resolution_precedence temBothRepsFile).2 (by decide)⟩

/-! ## Claim C4 -/

/-- C4: for every non-empty equal-length TIMES/TIMESWIDTH pair the
resolution yields `times_start = times − width` and
`times_end = times + width` pointwise, after first dividing both arrays by
1000 when the recorded unit suffix is `us`; in particular
`times=[5.0], width=[1.0]` (ms) resolves to start `[4.0]`, end `[6.0]`, and
`times=[5000.0], width=[1000.0]` with the `us` suffix resolves to the
identical result. -/
theorem c4_times_width_reconciliation :
    (∀ (s : TemScan) (t w : List ℚ), s.times = some t → s.times_width = some w →
      t ≠ [] → t.length = w.length →
      (postProcessTem s).times_start =
        List.zipWith (fun a b => a - b)
          (if s.current_unit = "us" then t.map (fun x => x / 1000) else t)
          (if s.current_unit = "us" then w.map (fun x => x / 1000) else w) ∧
      (postProcessTem s).times_end =
        List.zipWith (fun a b => a + b)
          (if s.current_unit = "us" then t.map (fun x => x / 1000) else t)
          (if s.current_unit = "us" then w.map (fun x => x / 1000) else w)) ∧
    (parseFileHeaders ["/TIMES(ms)=5.0", "/TIMESWIDTH(ms)=1.0"]).times_start = [4] ∧
    (parseFileHeaders ["/TIMES(ms)=5.0", "/TIMESWIDTH(ms)=1.0"]).times_end = [6] ∧
    (parseFileHeaders ["/TIMES(us)=5000.0", "/TIMESWIDTH(us)=1000.0"]).times_start = [4] ∧
    (parseFileHeaders ["/TIMES(us)=5000.0", "/TIMESWIDTH(us)=1000.0"]).times_end = [6] := by
  refine ⟨?_, by decide, by decide, by decide, by decide⟩
  intro s t w ht hw hne hlen
  have hwne : w ≠ [] := by
    intro hw0
    exact hne (List.length_eq_zero.mp (by rw [hlen, hw0]; rfl))
  have hvalid : validTW s.times s.times_width = true := by
    rw [ht, hw]
    simp [validTW, hne, hwne, hlen]
  rw [postProcessTem_times_start, postProcessTem_times_end, hvalid,
    if_pos rfl, if_pos rfl, zipWith_qSub, zipWith_qAdd, ht, hw]
  rw [convertUnit_eq, convertUnit_eq]
  exact ⟨rfl, rfl⟩

/-- C4 (witness): the general reconciliation statement applied to the
state scanned from the millisecond example file. -/
theorem c4_times_width_reconciliation_witness :
    (scanTemLines ["/TIMES(ms)=5.0", "/TIMESWIDTH(ms)=1.0"]).times = some [5] ∧
    (postProcessTem (scanTemLines ["/TIMES(ms)=5.0", "/TIMESWIDTH(ms)=1.0"])).times_start =
      List.zipWith (fun a b => a - b)
        (if (scanTemLines ["/TIMES(ms)=5.0", "/TIMESWIDTH(ms)=1.0"]).current_unit = "us"
         then [(5 : ℚ)].map (fun x => x / 1000) else [(5 : ℚ)])
        (if (scanTemLines ["/TIMES(ms)=5.0", "/TIMESWIDTH(ms)=1.0"]).current_unit = "us"
         then [(1 : ℚ)].map (fun x => x / 1000) else [(1 : ℚ)]) :=
  ⟨by decide,
   ((c4_times_width_reconciliation.1 (scanTemLines ["/TIMES(ms)=5.0", "/TIMESWIDTH(ms)=1.0"])
      [5] [1] (by decide) (by decide) (by decide) (by decide)).1)⟩

/-! ## Claim C3 -/

/-- C3 (counterexample): a header giving its windows only through explicit
`TIMESSTART(us)`/`TIMESEND(us)` directives resolves them with NO division
(`[2000]`/`[4000]` stay as written in the file), and the sampling builder
then divides exactly once, writing a primary gate of `2.000`/`4.000` ms:
the times are divided by 1000 once in total, not twice as claimed
(twice would give `0.002`). -/
theorem c3_double_division_counterexample :
    sniffUs (parseFileHeaders temUsExplicitFile).header_lines = true ∧
    (parseFileHeaders temUsExplicitFile).times_start = [2000] ∧
    (parseFileHeaders temUsExplicitFile).times_end = [4000] ∧
    samplingTimesStart (parseFileHeaders temUsExplicitFile) = [2] ∧
    samplingTimesEnd (parseFileHeaders temUsExplicitFile) = [4] ∧
    genSamplingCsv (parseFileHeaders temUsExplicitFile) "Square_30.000.csv" =
      some ("Square_30.000_1ch.csv",
        ["Sampling Name,Square_30.000_1ch",
         "Primary Time Gate,2.000,4.000",
         "Field Type,b",
         "Channel Name,ChStart,ChEnd,Red,Green,Blue,LineWt",
         "Ch1,2.000,4.000,0.250000,0.750000,0.500000,2"]) ∧
    (2 : ℚ) ≠ 2000 / 1000 / 1000 := by
  refine ⟨by decide, by decide, by decide, by decide, by decide, by decide, by norm_num⟩

/-- C3 (amended): whenever any raw header line contains one of the literal
substrings `TIMESSTART(us)`, `TIMES(us)` or `TIMESEND(us)`, the sampling
builder divides the already-resolved times by 1000 exactly once more before
writing; this is additive to whatever conversion the resolution stage
applied (one division there for the TIMES/TIMESWIDTH(us) representation,
none for explicit TIMESSTART/TIMESEND directives). -/
theorem c3_sampling_second_division (s : TemScan)
    (h : sniffUs s.header_lines = true) :
    samplingTimesStart s = s.times_start.map (fun t => t / 1000) ∧
    samplingTimesEnd s = s.times_end.map (fun t => t / 1000) := by
  rw [samplingTimesStart, samplingTimesEnd, h]
  rw [show (fun t => qDiv t (qOfInt 1000)) = fun t : ℚ => t / 1000 from funext qDiv_thousand]
  exact ⟨rfl, rfl⟩

/-- C3 (witness): the second division applied to the record parsed from the
explicit-microsecond file. -/
theorem c3_sampling_second_division_witness :
    sniffUs (parseFileHeaders temUsExplicitFile).header_lines = true ∧
    samplingTimesStart (parseFileHeaders temUsExplicitFile) =
      (parseFileHeaders temUsExplicitFile).times_start.map (fun t => t / 1000) :=
  ⟨by decide, (c3_sampling_second_division (parseFileHeaders temUsExplicitFile) (by decide)).1⟩

/-! ## Claim C5 -/

theorem mkRat_div (a : Int) (b : Nat) : mkRat a b = (a : ℚ) / (b : ℚ) := by
  rw [Rat.mkRat_eq_divInt, Rat.divInt_eq_div]
  norm_num

/-- The duty-based name prefix in ordinary arithmetic language. -/
theorem dutyNamePart_spec (duty : String) :
    dutyNamePart duty =
      match pyFloat? (pyStrip duty) with
      | some d => if |d - 50| < 1 / 1000 then "50_Square" else "Square"
      | none => "Square" := by
  unfold dutyNamePart
  cases h : pyFloat? (pyStrip duty) with
  | none => rfl
  | some d =>
    have key : qLtB (qAbs (qSub d (qOfInt 50))) (mkRat 1 1000) = true ↔ |d - 50| < 1 / 1000 := by
      rw [qLtB_iff, qAbs_eq, qSub_eq, qOfInt_eq, mkRat_div]
      norm_num
    show (if qLtB (qAbs (qSub d (qOfInt 50))) (mkRat 1 1000) = true then "50_Square" else "Square")
        = if |d - 50| < 1 / 1000 then "50_Square" else "Square"
    by_cases hc : |d - 50| < 1 / 1000
    · rw [if_pos (key.mpr hc), if_pos hc]
    · rw [if_neg (fun hbt => hc (key.mp hbt)), if_neg hc]

/-- The duty-based naming pair in ordinary arithmetic language. -/
theorem dutyBasedNames_spec (bf duty : String) :
    dutyBasedNames bf duty =
      ((match pyFloat? (pyStrip duty) with
        | some d => if |d - 50| < 1 / 1000 then "50_Square" else "Square"
        | none => "Square") ++ "_" ++ bf ++ ".csv",
       (match pyFloat? (pyStrip duty) with
        | some d => if |d - 50| < 1 / 1000 then "50_Square" else "Square"
        | none => "Square") ++ "_" ++ bf) := by
  unfold dutyBasedNames
  rw [dutyNamePart_spec]

/-- C5: whenever `_generate_waveform_csv` produces a waveform, its name is
the prefix chosen by the claim's rule — `UTEM` whenever `tx_waveform` is
exactly `"UTEM"`, otherwise `50_Square` when the duty cycle parses as a
float within `1e-3` of 50, and `Square` for any other parsed value or an
unparseable duty cycle — joined to the base frequency. -/
theorem c5_waveform_naming :
    ∀ (base_freq : Option String) (tx duty : String) (out : WaveformOut),
      genWaveform base_freq tx duty = some out →
      out.name =
        (if tx = "UTEM" then "UTEM"
         else match pyFloat? (pyStrip duty) with
              | some d => if |d - 50| < 1 / 1000 then "50_Square" else "Square"
              | none => "Square") ++ "_" ++ base_freq.getD "None" := by
  intro bf tx duty out h
  simp only [genWaveform] at h
  by_cases h0 : bf = none ∨ bf = some ""
  · rw [if_pos h0] at h
    exact absurd h (by simp)
  · rw [if_neg h0] at h
    by_cases htx : tx = "UTEM"
    · rw [if_pos htx] at h
      rw [if_pos htx]
      rw [← Option.some.inj h]
      rfl
    · rw [if_neg htx] at h
      rw [if_neg htx]
      by_cases hun : tx = "Undefined"
      · rw [if_pos hun] at h
        have hname : out.name = (dutyBasedNames (bf.getD "None") duty).2 := by
          split at h <;> rw [← Option.some.inj h]
        rw [hname, dutyBasedNames_spec]
      · rw [if_neg hun] at h
        exact absurd h (by simp)

/-- C5 (witness): a duty cycle of `"50.000"` with an `Undefined` transmitter
waveform yields the `50_Square` prefix, exactly as the naming rule says. -/
theorem c5_waveform_naming_witness :
    genWaveform (some "30.000") "Undefined" "50.000" =
      some ⟨"50_Square_30.000.csv", "50_Square_30.000",
            halfDutyContent "50_Square_30.000" "30.000"⟩ ∧
    (⟨"50_Square_30.000.csv", "50_Square_30.000",
      halfDutyContent "50_Square_30.000" "30.000"⟩ : WaveformOut).name =
      (if ("Undefined" : String) = "UTEM" then "UTEM"
       else match pyFloat? (pyStrip "50.000") with
            | some d => if |d - 50| < 1 / 1000 then "50_Square" else "Square"
            | none => "Square") ++ "_" ++ (some "30.000").getD "None" :=
  ⟨by decide, c5_waveform_naming (some "30.000") "Undefined" "50.000" _ (by decide)⟩

/-! ## Claim C6 -/

/-- C6 (counterexample): a `BFREQ` value that does not parse as a float is
kept raw (`"1.2.3"`), the UTEM waveform built from it is named
`UTEM_1.2.3.csv`, and the sampling name derived from that file is
`UTEM_1.2.3_3ch`: the UTEM branch passes the base name through unchanged,
so no frequency is reformatted to 3 decimal places there, while the
claim's own reformat-always rule cannot even produce a name. -/
theorem c6_utem_reformat_counterexample :
    (parseFileHeaders temRawBfreqUtemFile).base_frequency = some "1.2.3" ∧
    (parseFileHeaders temRawBfreqUtemFile).tx_waveform = "UTEM" ∧
    (parseFileHeaders temRawBfreqUtemFile).duty_cycle = some "100" ∧
    genWaveform (some "1.2.3") "UTEM" "100" =
      some ⟨"UTEM_1.2.3.csv", "UTEM_1.2.3", utemContent "UTEM_1.2.3" "1.2.3"⟩ ∧
    genSamplingName "UTEM_1.2.3.csv" 3 = some "UTEM_1.2.3_3ch" ∧
    samplingNameClaimed "UTEM_1.2.3" 3 = none ∧
    genSamplingName "UTEM_1.2.3.csv" 3 ≠ samplingNameClaimed "UTEM_1.2.3" 3 := by
  decide

/-- C6 (amended): the sampling name is
`"<waveform_base_name>_<num_channels>ch"`, with the embedded frequency
reformatted to exactly 3 decimal places for the `Square` and `50_Square`
prefix shapes only; a base name containing `UTEM` is passed through with no
reformatting. -/
theorem c6_sampling_name_by_shape (base : String) (n : Nat) :
    (containsSub base "UTEM" = true →
      samplingNameFromBase base n = some (base ++ "_" ++ natToStr n ++ "ch")) ∧
    (∀ f q, containsSub base "UTEM" = false → pySplit base "_" = ["Square", f] →
      pyFloat? f = some q →
      samplingNameFromBase base n =
        some ("Square_" ++ formatFixed q 3 ++ "_" ++ natToStr n ++ "ch")) ∧
    (∀ p f q, containsSub base "UTEM" = false → pySplit base "_" = ["50", p, f] →
      pyFloat? f = some q →
      samplingNameFromBase base n =
        some ("50_Square_" ++ formatFixed q 3 ++ "_" ++ natToStr n ++ "ch")) := by
  refine ⟨?_, ?_, ?_⟩
  · intro h
    unfold samplingNameFromBase
    rw [if_pos h]
  · intro f q hU hsplit hparse
    simp [samplingNameFromBase, hsplit, hU, hparse]
  · intro p f q hU hsplit hparse
    simp [samplingNameFromBase, hsplit, hU, hparse]

/-- C6 (witness for the amended theorem): `Square_5.2` has its frequency
reformatted to `5.200` in the sampling name. -/
theorem c6_sampling_name_by_shape_witness :
    containsSub "Square_5.2" "UTEM" = false ∧
    pySplit "Square_5.2" "_" = ["Square", "5.2"] ∧
    pyFloat? "5.2" = some (mkRat 26 5) ∧
    samplingNameFromBase "Square_5.2" 3 =
      some ("Square_" ++ formatFixed (mkRat 26 5) 3 ++ "_" ++ natToStr 3 ++ "ch") :=
  ⟨by decide, by decide, by decide,
   (c6_sampling_name_by_shape "Square_5.2" 3).2.1 "5.2" (mkRat 26 5)
     (by decide) (by decide) (by decide)⟩

/-! ## Claim C7 -/

/-- C7: generating the waveform CSV twice from identical header data leaves
the file system of the second run byte-identical to that of the first run
and returns the same result, and whenever the target file already exists
with row content matching the rows to be written, the write is skipped. -/
theorem c7_waveform_write_idempotent (bf : Option String) (tx duty : String) (fs : Fs) :
    (genWaveformFs bf tx duty (genWaveformFs bf tx duty fs).1).1 =
      (genWaveformFs bf tx duty fs).1 ∧
    (genWaveformFs bf tx duty (genWaveformFs bf tx duty fs).1).2.1 =
      (genWaveformFs bf tx duty fs).2.1 ∧
    (∀ out existing, genWaveform bf tx duty = some out →
      fs (waveformPath out.filename) = some existing →
      csvReadRows existing = out.rows →
      (genWaveformFs bf tx duty fs).2.2 = false) := by
  cases hg : genWaveform bf tx duty with
  | none =>
    refine ⟨?_, ?_, ?_⟩
    · simp [genWaveformFs, hg]
    · simp [genWaveformFs, hg]
    · intro out existing hout
      exact absurd hout (by simp)
  | some out =>
    have hstep : ∀ g : Fs, genWaveformFs bf tx duty g =
        match g (waveformPath out.filename) with
        | some existing =>
          if csvReadRows existing = out.rows then (g, some out.filename, false)
          else (Function.update g (waveformPath out.filename)
                  (some (csvSerialize out.rows)), some out.filename, true)
        | none => (Function.update g (waveformPath out.filename)
                  (some (csvSerialize out.rows)), some out.filename, true) := by
      intro g
      unfold genWaveformFs
      rw [hg]
    cases hfs : fs (waveformPath out.filename) with
    | none =>
      have h1 : genWaveformFs bf tx duty fs =
          (Function.update fs (waveformPath out.filename) (some (csvSerialize out.rows)),
           some out.filename, true) := by
        rw [hstep fs, hfs]
      have h2 : (genWaveformFs bf tx duty fs).1 (waveformPath out.filename) =
          some (csvSerialize out.rows) := by
        rw [h1]
        exact Function.update_same _ _ _
      refine ⟨?_, ?_, ?_⟩
      · rw [hstep ((genWaveformFs bf tx duty fs).1), h2]
        dsimp only
        by_cases hrt : csvReadRows (csvSerialize out.rows) = out.rows
        · rw [if_pos hrt]
        · rw [if_neg hrt, h1]
          exact Function.update_idem _ _ _
      · rw [hstep ((genWaveformFs bf tx duty fs).1), h2, h1]
        dsimp only
        by_cases hrt : csvReadRows (csvSerialize out.rows) = out.rows
        · rw [if_pos hrt]
        · rw [if_neg hrt]
      · intro out2 existing hout2 hfse
        rw [← Option.some.inj hout2, hfs] at hfse
        exact absurd hfse (by simp)
    | some existing =>
      by_cases hm : csvReadRows existing = out.rows
      · have h1 : genWaveformFs bf tx duty fs = (fs, some out.filename, false) := by
          rw [hstep fs, hfs]
          dsimp only
          rw [if_pos hm]
        refine ⟨?_, ?_, ?_⟩
        · rw [h1]
          dsimp only
          rw [hstep fs, hfs]
          dsimp only
          rw [if_pos hm]
        · rw [h1]
          dsimp only
          rw [hstep fs, hfs]
          dsimp only
          rw [if_pos hm]
        · intro out2 existing2 hout2 hfse hrows
          rw [h1]
      · have h1 : genWaveformFs bf tx duty fs =
            (Function.update fs (waveformPath out.filename) (some (csvSerialize out.rows)),
             some out.filename, true) := by
          rw [hstep fs, hfs]
          dsimp only
          rw [if_neg hm]
        have h2 : (genWaveformFs bf tx duty fs).1 (waveformPath out.filename) =
            some (csvSerialize out.rows) := by
          rw [h1]
          exact Function.update_same _ _ _
        refine ⟨?_, ?_, ?_⟩
        · rw [hstep ((genWaveformFs bf tx duty fs).1), h2]
          dsimp only
          by_cases hrt : csvReadRows (csvSerialize out.rows) = out.rows
          · rw [if_pos hrt]
          · rw [if_neg hrt, h1]
            exact Function.update_idem _ _ _
        · rw [hstep ((genWaveformFs bf tx duty fs).1), h2, h1]
          dsimp only
          by_cases hrt : csvReadRows (csvSerialize out.rows) = out.rows
          · rw [if_pos hrt]
          · rw [if_neg hrt]
        · intro out2 existing2 hout2 hfse hrows
          rw [← Option.some.inj hout2, hfs] at hfse
          rw [← Option.some.inj hout2] at hrows
          rw [Option.some.inj hfse] at hm
          exact absurd hrows hm

set_option maxRecDepth 40000 in
/-- C7 (witness): with the UTEM waveform file already on disk with matching
content, a generation run is a skipped no-op and a repeated run leaves the
file system unchanged. -/
theorem c7_waveform_write_idempotent_witness :
    genWaveform (some "30.000") "UTEM" "100" =
      some ⟨"UTEM_30.000.csv", "UTEM_30.000", utemContent "UTEM_30.000" "30.000"⟩ ∧
    fsWithUtem (waveformPath "UTEM_30.000.csv") =
      some (csvSerialize (utemContent "UTEM_30.000" "30.000")) ∧
    csvReadRows (csvSerialize (utemContent "UTEM_30.000" "30.000")) =
      utemContent "UTEM_30.000" "30.000" ∧
    (genWaveformFs (some "30.000") "UTEM" "100" fsWithUtem).2.2 = false ∧
    (genWaveformFs (some "30.000") "UTEM" "100"
      (genWaveformFs (some "30.000") "UTEM" "100" fsWithUtem).1).1 =
      (genWaveformFs (some "30.000") "UTEM" "100" fsWithUtem).1 :=
  ⟨by decide, by decide, by decide,
   (c7_waveform_write_idempotent (some "30.000") "UTEM" "100" fsWithUtem).2.2
     ⟨"UTEM_30.000.csv", "UTEM_30.000", utemContent "UTEM_30.000" "30.000"⟩
     (csvSerialize (utemContent "UTEM_30.000" "30.000"))
     (by decide) (by decide) (by decide),
   (c7_waveform_write_idempotent (some "30.000") "UTEM" "100" fsWithUtem).1⟩

/-! ## Claim C2 -/

/-- C2 (counterexample): with the CHANNEL TIMES block absent but the other
blocks present and well-formed, the MCG parse fails (`KeyError`) but the
waveform CSV has already been written when the failure occurs — the failure
is not all-or-nothing. -/
theorem c2_mcg_partial_write_counterexample :
    (parseMcgFile mcgNoChannelTimes "cal").2 = some "KeyError: channel_times" ∧
    (parseMcgFile mcgNoChannelTimes "cal").1.map Prod.fst =
      ["Provus_Options/Waveforms/cal.csv"] ∧
    (parseMcgFile mcgNoChannelTimes "cal").1 ≠ [] := by
  decide

set_option maxHeartbeats 1000000 in
/-- C2 (amended): absence of any of the four named blocks/directives is a
fatal parse failure and the channel-sampling CSV is never produced, but the
failure is all-or-nothing only for the STANDARD WAVEFORM block (which
aborts before any write); a missing CHANNEL TIMES block, Units directive or
Unit Types directive aborts after the waveform CSV write, so the only file
ever written on those paths is the waveform CSV. -/
theorem c2_mcg_missing_block_failure (m : McgMatches) (base : String) :
    (m.waveform_points = none →
      parseMcgFile m base = ([], some "KeyError: waveform_points")) ∧
    ((m.channel_times = none ∨ m.units = none ∨ m.unit_types = none) →
      (parseMcgFile m base).2 ≠ none ∧
      ∀ w ∈ (parseMcgFile m base).1, w.1 = mcgWaveformPath base) := by
  cases hwp : m.waveform_points with
  | none =>
    constructor
    · intro _
      unfold parseMcgFile
      rw [hwp]
    · intro _
      unfold parseMcgFile
      rw [hwp]
      exact ⟨by simp, by simp⟩
  | some wp =>
    constructor
    · intro h
      simp_all
    · intro hmiss
      unfold parseMcgFile
      rw [hwp]
      rcases hmiss with h | h | h <;> rw [h] <;> repeat' split
      all_goals simp_all

/-- C2 (witness): the two failure shapes at concrete inputs — no write at
all when the waveform block is missing, only the waveform CSV written when
the channel block is missing. -/
theorem c2_mcg_missing_block_failure_witness :
    parseMcgFile mcgNoWaveform "cal" = ([], some "KeyError: waveform_points") ∧
    ((parseMcgFile mcgNoChannelTimes "cal").2 ≠ none ∧
      ∀ w ∈ (parseMcgFile mcgNoChannelTimes "cal").1,
        w.1 = mcgWaveformPath "cal") :=
  ⟨(c2_mcg_missing_block_failure mcgNoWaveform "cal").1 (by decide),
   (c2_mcg_missing_block_failure mcgNoChannelTimes "cal").2 (Or.inl (by decide))⟩

/-! ## Claim C8 -/

theorem qOfInt_zero : qOfInt 0 = 0 := by
  rw [qOfInt_eq]
  norm_num

/-- One loop step of `parse_pem_file` cannot set the survey parameters or
raise when the (stripped) line does not contain both `Metric` and `Cable`. -/
theorem pemStep_preserves (st : PemScan) (l : String)
    (hl : ¬(containsSub (pyStrip l) "Metric" = true ∧
            containsSub (pyStrip l) "Cable" = true))
    (hsv : st.survey = none) (herr : st.err = none) :
    (pemStep st l).survey = none ∧ (pemStep st l).err = none := by
  unfold pemStep
  by_cases h1 : st.err.isSome = true ∨ st.stopped = true
  · rw [if_pos h1]
    exact ⟨hsv, herr⟩
  · rw [if_neg h1]
    by_cases h2 : pyStrip l = ""
    · rw [if_pos h2]
      exact ⟨hsv, herr⟩
    · rw [if_neg h2]
      have h3 : ¬(st.survey = none ∧ containsSub (pyStrip l) "Metric" = true ∧
          containsSub (pyStrip l) "Cable" = true) :=
        fun hcon => hl ⟨hcon.2.1, hcon.2.2⟩
      rw [if_neg h3]
      dsimp only
      split_ifs <;> first
        | exact ⟨hsv, herr⟩
        | (split <;> exact ⟨hsv, herr⟩)

/-- Folding the loop over lines none of which carries both `Metric` and
`Cable` leaves the survey unset and raises nothing. -/
theorem pemFold_no_survey (content : List String)
    (h : ∀ l ∈ content, ¬(containsSub (pyStrip l) "Metric" = true ∧
          containsSub (pyStrip l) "Cable" = true)) :
    ∀ st : PemScan, st.survey = none → st.err = none →
      (content.foldl pemStep st).survey = none ∧
      (content.foldl pemStep st).err = none := by
  induction content with
  | nil =>
    intro st hs he
    exact ⟨hs, he⟩
  | cons l t ih =>
    intro st hs he
    have hstep := pemStep_preserves st l (h l (by simp)) hs he
    exact ih (fun x hx => h x (by simp [hx])) _ hstep.1 hstep.2

/-- C8: a PEM input with no line containing both literal tokens `Metric`
and `Cable` fails fatally with the missing-survey-parameters error, and the
caller produces zero output files for it. -/
theorem c8_pem_missing_survey_line (content : List String)
    (h : ∀ l ∈ content, ¬(containsSub (pyStrip l) "Metric" = true ∧
          containsSub (pyStrip l) "Cable" = true)) :
    parsePemFile content = .fail "Could not find survey parameters line" ∧
    processPem content = [] := by
  have hf := pemFold_no_survey content h {} rfl rfl
  have hp : parsePemFile content = .fail "Could not find survey parameters line" := by
    unfold parsePemFile
    dsimp only
    rw [hf.2, hf.1]
  refine ⟨hp, ?_⟩
  unfold processPem
  rw [hp]

/-- C8 (witness): the no-survey file fails and produces no writes. -/
theorem c8_pem_missing_survey_line_witness :
    parsePemFile pemNoSurveyFile = .fail "Could not find survey parameters line" ∧
    processPem pemNoSurveyFile = [] :=
  c8_pem_missing_survey_line pemNoSurveyFile (by decide)

/-! ## Claim C9 -/

/-- C9: for a time-window list of length `L ≥ 4` the synthesizer emits
exactly `L − 3` channel rows; channel 1 takes its start/end from elements
`[2]` and `[3]` (seconds scaled by 1000 into ms), and every later channel's
start equals the previous channel's end (`i` here is the 0-based loop
index, so rows `i ≥ 1` are channels 2 and beyond). -/
theorem c9_pem_channel_pairing (tw : List ℚ) (h : 4 ≤ tw.length) :
    (pemChannelRows tw).length = tw.length - 3 ∧
    pemChStart tw 0 = tw.getD 2 0 * 1000 ∧
    pemChEnd tw 0 = tw.getD 3 0 * 1000 ∧
    (∀ i, 1 ≤ i → i < tw.length - 3 → pemChStart tw i = pemChEnd tw (i - 1)) := by
  refine ⟨?_, ?_, ?_, ?_⟩
  · unfold pemChannelRows
    rw [if_pos (by omega), List.length_map, List.length_range]
  · unfold pemChStart
    rw [if_pos rfl, qMul_thousand, qOfInt_zero]
  · unfold pemChEnd
    rw [qMul_thousand, qOfInt_zero]
  · intro i h1 h2
    unfold pemChStart pemChEnd
    rw [if_neg (by omega)]
    have h3 : i - 1 + 3 = i + 2 := by omega
    rw [h3]

/-- C9 (witness): the pairing applied to a concrete five-window list
(two channel rows, with channel 2 starting at channel 1's end). -/
theorem c9_pem_channel_pairing_witness :
    4 ≤ pemDemoTw.length ∧
    ((pemChannelRows pemDemoTw).length = pemDemoTw.length - 3 ∧
     pemChStart pemDemoTw 0 = pemDemoTw.getD 2 0 * 1000 ∧
     pemChEnd pemDemoTw 0 = pemDemoTw.getD 3 0 * 1000 ∧
     (∀ i, 1 ≤ i → i < pemDemoTw.length - 3 →
        pemChStart pemDemoTw i = pemChEnd pemDemoTw (i - 1))) :=
  ⟨by decide, c9_pem_channel_pairing pemDemoTw (by decide)⟩

/-! ## Claim C10 -/

/-- C10: every successfully parsed PEM input produces exactly two
descriptor files whose first rows carry the fixed names `Crone_15Hz`
(waveform) and `Crone_15Hz_21ch` (sampling), independent of the derived
base frequency, the ramp time and the number of channel rows. -/
theorem c10_pem_fixed_names (content : List String) (bf rt : ℚ)
    (p : PemSurveyParams) (tw : List ℚ)
    (h : parsePemFile content = .ok bf rt p tw) :
    (processPem content).map (fun w => w.2.head?) =
      [some ["Waveform Name", "Crone_15Hz"],
       some ["Sampling Name", "Crone_15Hz_21ch"]] := by
  unfold processPem
  rw [h]
  rfl

/-- C10 (witness): the fixed names on the concrete demo PEM file. -/
theorem c10_pem_fixed_names_witness :
    parsePemFile pemDemoFile =
      .ok (mkRat 250000 20833) (mkRat 3 20000)
        ⟨"Borehole", "Metric", "Crystal", mkRat 20833 1000, 150, 20, 1⟩
        [mkRat (-1) 10, mkRat 1 5, mkRat 1953 1000000,
         mkRat 1953 500000, mkRat 1 200] ∧
    (processPem pemDemoFile).map (fun w => w.2.head?) =
      [some ["Waveform Name", "Crone_15Hz"],
       some ["Sampling Name", "Crone_15Hz_21ch"]] :=
  ⟨by decide,
   c10_pem_fixed_names pemDemoFile (mkRat 250000 20833) (mkRat 3 20000)
     ⟨"Borehole", "Metric", "Crystal", mkRat 20833 1000, 150, 20, 1⟩
     [mkRat (-1) 10, mkRat 1 5, mkRat 1953 1000000,
      mkRat 1953 500000, mkRat 1 200] (by decide)⟩

end Provus
